import Mathlib

/-!
Verification of the backend-link dispatcher of the CSV-Plotter repository
(src/app-core/src/backend/backend_link.rs).

The dispatcher lets frontend call sites issue asynchronous commands against
exclusively-owned backend state and cooperatively cancel interest in the
result.  We shallowly embed the Rust code:

* The `Arc<AtomicBool>` cancellation flag and the mpsc result channel shared
  by one `BackendLink` (request) / `LinkReceiver` pair are made explicit as a
  `LinkState` value threaded through the operations.
* The action closure `Fn(&mut BackendEventLoop<S>) -> T` becomes a pure
  function `S → S × T` (the mutable borrow becomes explicit state passing).
* The two points inside `run_on_backend` at which the frontend may
  concurrently drop the `LinkReceiver` (while the action runs, and between
  the second flag check and the channel send) are passed as explicit
  booleans: they select the interleaving of the racing drop.
* Fallible operations (`try_recv`, `recv_timeout`, the panicking
  `request_parameter_update`) return `Except`.
-/

/-- State of the mpsc result channel shared by one request/receiver pair.
`buffer` is the queue of sent-but-unreceived values, `senderAlive` whether
the `Sender` (held by the request) still exists, `receiverAlive` whether the
`Receiver` end still exists.  Embeds the contract of
`std::sync::mpsc::channel`. -/
structure ChannelState (T : Type) where
  buffer : List T
  senderAlive : Bool
  receiverAlive : Bool
  deriving Repr, DecidableEq

/-- The shared state of one `BackendLink` / `LinkReceiver` pair: the
`Arc<AtomicBool>` cancellation flag plus the result channel. -/
structure LinkState (T : Type) where
  is_cancelled : Bool
  chan : ChannelState T
  deriving Repr, DecidableEq

/-- Embeds `BackendLink<T, F, S>` (backend_link.rs lines 21-31) minus the
shared parts (`backchannel` send end and `is_cancelled` flag live in the
explicit `LinkState`): the action closure and the description string. -/
structure BackendLink (S T : Type) where
  action : S → S × T
  description : String

/-- Embeds `LinkReceiver<T>` (backend_link.rs lines 134-139) minus the shared
parts (`rx` receive end and `is_cancelled` flag live in the explicit
`LinkState`). -/
structure LinkReceiver (T : Type) where
  description : String
  deriving Repr, DecidableEq

/-- Embeds `BackendLink::new` (backend_link.rs lines 38-56): allocates a
fresh channel (`channel()`) and a fresh flag (`AtomicBool::new(false)`),
and returns the receiver, the link and their shared state. -/
def BackendLink.new {S T : Type} (description : String) (action : S → S × T) :
    LinkReceiver T × BackendLink S T × LinkState T :=
  let is_cancelled : Bool := false
  let rx : LinkReceiver T := { description := description }
  ( rx,
    { action := action, description := description },
    { is_cancelled := is_cancelled,
      chan := { buffer := [], senderAlive := true, receiverAlive := true } } )

/-- Embeds `BackendLink::is_cancelled` (backend_link.rs lines 58-60): loads
the shared flag. -/
def BackendLink.is_cancelled_load {T : Type} (st : LinkState T) : Bool :=
  st.is_cancelled

/-- Embeds `BackendRequest::describe` for `BackendLink`
(backend_link.rs lines 129-131). -/
def BackendLink.describe {S T : Type} (link : BackendLink S T) : String :=
  link.description

/-- Embeds `impl Drop for LinkReceiver` (backend_link.rs lines 150-155):
stores `true` into the shared flag, then the receive end of the channel is
released. -/
def dropReceiver {T : Type} (st : LinkState T) : LinkState T :=
  { st with is_cancelled := true,
            chan := { st.chan with receiverAlive := false } }

/-- Embeds `Sender::send` of `std::sync::mpsc`: succeeds (appending to the
channel buffer) iff the receive end still exists; otherwise returns
`Err(SendError)`. -/
def channelSend {T : Type} (ch : ChannelState T) (v : T) :
    Except Unit (ChannelState T) :=
  if ch.receiverAlive then
    Except.ok { ch with buffer := ch.buffer ++ [v] }
  else
    Except.error ()

/-- Observations of one `run_on_backend` call: how many times the action ran,
the value delivered through the channel (if any), whether the
closed-channel warning was logged, and the flag values read at the two
check points (`flagSecond = none` when the call returned before the
re-check). -/
structure RunObs (T : Type) where
  actionRuns : Nat
  sent : Option T
  warned : Bool
  flagFirst : Bool
  flagSecond : Option Bool
  deriving Repr, DecidableEq

/-- Embeds `BackendRequest::run_on_backend` for `BackendLink`
(backend_link.rs lines 111-128).

`dropDuringAction` (resp. `dropBeforeSend`) selects the interleaving in
which the frontend drops the `LinkReceiver` while `self.action` runs
(resp. between the second flag check and the `send`); the drop executes the
`Drop` impl, i.e. `dropReceiver`.

The call:
1. loads the flag; if true, returns at once;
2. otherwise runs the action on the backend state;
3. re-loads the flag; if now true, returns without sending;
4. otherwise sends the result; a send error (receive end gone) is logged
   with `warn!` and discarded (`let _ = ... .map_err(...)`).

The function is total: no error is propagated and no panic is possible. -/
def BackendLink.run_on_backend {S T : Type} (link : BackendLink S T)
    (dropDuringAction dropBeforeSend : Bool)
    (st : LinkState T) (backend : S) : LinkState T × S × RunObs T :=
  let flagFirst := st.is_cancelled
  if flagFirst then
    (st, backend,
      { actionRuns := 0, sent := none, warned := false,
        flagFirst := flagFirst, flagSecond := none })
  else
    let (backend1, result) := link.action backend
    let st1 := if dropDuringAction then dropReceiver st else st
    let flagSecond := st1.is_cancelled
    if flagSecond then
      (st1, backend1,
        { actionRuns := 1, sent := none, warned := false,
          flagFirst := flagFirst, flagSecond := some flagSecond })
    else
      let st2 := if dropBeforeSend then dropReceiver st1 else st1
      match channelSend st2.chan result with
      | Except.ok ch =>
          ({ st2 with chan := ch }, backend1,
            { actionRuns := 1, sent := some result, warned := false,
              flagFirst := flagFirst, flagSecond := some flagSecond })
      | Except.error _ =>
          (st2, backend1,
            { actionRuns := 1, sent := none, warned := true,
              flagFirst := flagFirst, flagSecond := some flagSecond })

/-- Error type of `LinkReceiver::try_recv`, embedding
`std::sync::mpsc::TryRecvError`. -/
inductive TryRecvErr where
  | empty
  | disconnected
  deriving Repr, DecidableEq

/-- Error type of `LinkReceiver::recv_timeout`, embedding
`std::sync::mpsc::RecvTimeoutError`. -/
inductive RecvTimeoutErr where
  | timeout
  | disconnected
  deriving Repr, DecidableEq

/-- Embeds `LinkReceiver::try_recv` (backend_link.rs lines 142-144), which
delegates to `Receiver::try_recv` of `std::sync::mpsc`: returns the first
buffered value if one exists, `Err(Empty)` if none is buffered and the send
end still exists, `Err(Disconnected)` if none is buffered and the send end
was dropped. -/
def LinkReceiver.try_recv {T : Type} (st : LinkState T) :
    Except TryRecvErr T × LinkState T :=
  match st.chan.buffer with
  | v :: rest =>
      (Except.ok v, { st with chan := { st.chan with buffer := rest } })
  | [] =>
      if st.chan.senderAlive then (Except.error TryRecvErr.empty, st)
      else (Except.error TryRecvErr.disconnected, st)

/-- Embeds `LinkReceiver::recv_timeout` (backend_link.rs lines 145-147),
which delegates to `Receiver::recv_timeout` of `std::sync::mpsc`.  The
real-time bound is abstracted: the model is evaluated on the channel state
at expiry of the wait, so a still-pending request yields the timeout
outcome.  `duration` is carried for signature fidelity only. -/
def LinkReceiver.recv_timeout {T : Type} (_duration : Nat) (st : LinkState T) :
    Except RecvTimeoutErr T × LinkState T :=
  match st.chan.buffer with
  | v :: rest =>
      (Except.ok v, { st with chan := { st.chan with buffer := rest } })
  | [] =>
      if st.chan.senderAlive then (Except.error RecvTimeoutErr.timeout, st)
      else (Except.error RecvTimeoutErr.disconnected, st)

/-- The operations a frontend or the backend loop can perform on one
request/receiver pair, used to state flag invariants over every code path
that touches the shared state. -/
inductive LinkOp (S T : Type) where
  | tryRecvOp
  | recvTimeoutOp (duration : Nat)
  | dropReceiverOp
  | runOnBackendOp (link : BackendLink S T) (dropDuringAction dropBeforeSend : Bool)

/-- One step of the pair's shared state and the backend state under a
`LinkOp`. -/
def LinkOp.step {S T : Type} : LinkOp S T → LinkState T × S → LinkState T × S
  | LinkOp.tryRecvOp, (st, b) => ((LinkReceiver.try_recv st).2, b)
  | LinkOp.recvTimeoutOp d, (st, b) => ((LinkReceiver.recv_timeout d st).2, b)
  | LinkOp.dropReceiverOp, (st, b) => (dropReceiver st, b)
  | LinkOp.runOnBackendOp link d1 d2, (st, b) =>
      let (st1, b1, _) := link.run_on_backend d1 d2 st b
      (st1, b1)

/-- Embeds the inline `LinkReceiver` / `Self` construction inside
`BackendLink::request_parameter_update` (backend_link.rs lines 75-88):
`channel()`, `AtomicBool::new(false)`, the `LinkReceiver { .. }` literal and
the `Self { .. }` literal. -/
def inlineConstruct {S T : Type} (description : String) (action : S → S × T) :
    LinkReceiver T × BackendLink S T × LinkState T :=
  let is_cancelled : Bool := false
  let rx : LinkReceiver T := { description := description }
  let linker : BackendLink S T := { action := action, description := description }
  ( rx, linker,
    { is_cancelled := is_cancelled,
      chan := { buffer := [], senderAlive := true, receiverAlive := true } } )

/-- Modelled from the spec: `UIParameter<T>` of app-core's frontend module is
not under src/; per the spec it is a UI-bound value holding the pending
`Receiver` of the request that will update it.  We record the held receiver
together with its pair's shared state (or `none` when no request is
pending). -/
structure UIParameter (T : Type) where
  recv : Option (LinkReceiver T × LinkState T)

/-- Modelled from the spec: `UIParameter::set_recv` of app-core's frontend
module is not under src/; per the spec it "replaces whatever Receiver the UI
value currently holds with the new one — the old Receiver's destruction
(triggered by replacement) cancels the superseded request".  Returns the
updated parameter and the superseded pair's shared state after the old
receiver's drop ran (or `none` if none was held). -/
def UIParameter.set_recv {T : Type} (parameter : UIParameter T)
    (rx : LinkReceiver T) (st : LinkState T) :
    UIParameter T × Option (LinkState T) :=
  match parameter.recv with
  | some (_, oldSt) => ({ recv := some (rx, st) }, some (dropReceiver oldSt))
  | none => ({ recv := some (rx, st) }, none)

/-- Modelled from the spec: the constant `BACKEND_HUNG_UP_MSG` of app-core's
crate root is not under src/; it is the panic message used when the request
queue has no live consumer.  Its exact text is irrelevant to the claims. -/
def BACKEND_HUNG_UP_MSG : String :=
  "backend thread hung up"

/-- Embeds `BackendLink::request_parameter_update`
(backend_link.rs lines 69-94): construct the receiver/link pair inline,
replace the parameter's held receiver with the fresh one (`set_recv`), then
enqueue the boxed link; `send(..).expect(BACKEND_HUNG_UP_MSG)` panics when
the queue's consumer is gone, which the embedding renders as
`Except.error BACKEND_HUNG_UP_MSG`.  On success it returns the updated
parameter, the dropped superseded state (if any), the fresh pair's shared
state and the queue with the new request appended. -/
def BackendLink.request_parameter_update {S T : Type}
    (parameter : UIParameter T) (description : String) (action : S → S × T)
    (consumerAlive : Bool) (queue : List (BackendLink S T)) :
    Except String
      (UIParameter T × Option (LinkState T) × LinkState T ×
        List (BackendLink S T)) :=
  let (rx, linker, st) := inlineConstruct description action
  let (parameter1, dropped) := parameter.set_recv rx st
  if consumerAlive then
    Except.ok (parameter1, dropped, st, queue ++ [linker])
  else
    Except.error BACKEND_HUNG_UP_MSG

/-- Concrete action used by witness theorems: increments a counter and
returns the old value. -/
def witnessAction : Nat → Nat × Nat :=
  fun s => (s + 1, s)

/-- Concrete link used by witness theorems. -/
def witnessLink : BackendLink Nat Nat :=
  { action := witnessAction, description := "witness" }

/-- A concrete shared state whose cancellation flag is still false. -/
def witnessStateLive : LinkState Nat :=
  { is_cancelled := false,
    chan := { buffer := [], senderAlive := true, receiverAlive := true } }

/-- A concrete shared state whose cancellation flag is already true (its
receiver was dropped, which also closed the receive end). -/
def witnessStateCancelled : LinkState Nat :=
  { is_cancelled := true,
    chan := { buffer := [], senderAlive := true, receiverAlive := false } }

/-- Claim C1: if the cancellation flag is true when `run_on_backend` is
invoked, the call returns immediately: the action closure is never invoked
(`actionRuns = 0`), the backend state and the shared state are left
unchanged, and no value is sent on the result channel (`sent = none`). -/
theorem run_on_backend_precancelled {S T : Type} (link : BackendLink S T)
    (d1 d2 : Bool) (st : LinkState T) (backend : S)
    (h : st.is_cancelled = true) :
    link.run_on_backend d1 d2 st backend =
      (st, backend,
        { actionRuns := 0, sent := none, warned := false,
          flagFirst := true, flagSecond := none }) := by
  simp [BackendLink.run_on_backend, h]

/-- Witness for C1: the pre-cancelled theorem applied at a concrete link,
state and backend value. -/
theorem run_on_backend_precancelled_witness :
    witnessStateCancelled.is_cancelled = true ∧
    witnessLink.run_on_backend false false witnessStateCancelled 0 =
      (witnessStateCancelled, 0,
        { actionRuns := 0, sent := none, warned := false,
          flagFirst := true, flagSecond := none }) :=
  ⟨rfl, run_on_backend_precancelled witnessLink false false
    witnessStateCancelled 0 rfl⟩

/-- Claim C2: if the flag is false at the first check but the receiver is
dropped while the action runs (so the flag is true at the re-check), the
mutation performed by the action remains in the backend state — the
returned backend state is exactly `(link.action backend).1`, with no
rollback — and the result is discarded silently: nothing is sent
(`sent = none`) and no error or warning is raised (`warned = false`). -/
theorem run_on_backend_cancel_during_action {S T : Type}
    (link : BackendLink S T) (d2 : Bool) (st : LinkState T) (backend : S)
    (h : st.is_cancelled = false) :
    link.run_on_backend true d2 st backend =
      (dropReceiver st, (link.action backend).1,
        { actionRuns := 1, sent := none, warned := false,
          flagFirst := false, flagSecond := some true }) := by
  simp [BackendLink.run_on_backend, h, dropReceiver]

/-- Witness for C2: the cancel-during-action theorem applied at a concrete
link, state and backend value; the increment performed by the action is
visible in the returned backend state. -/
theorem run_on_backend_cancel_during_action_witness :
    witnessStateLive.is_cancelled = false ∧
    witnessLink.run_on_backend true false witnessStateLive 41 =
      (dropReceiver witnessStateLive, 42,
        { actionRuns := 1, sent := none, warned := false,
          flagFirst := false, flagSecond := some true }) :=
  ⟨rfl, run_on_backend_cancel_during_action witnessLink false
    witnessStateLive 41 rfl⟩

/-- Claim C3: one `run_on_backend` call runs the action at most once, mutates
the backend state at most once (the result is the input state or one action
application), appends at most one value to the result channel, and a value
is sent only if the cancellation flag was observed false at both check
points. -/
theorem run_on_backend_at_most_once {S T : Type} (link : BackendLink S T)
    (d1 d2 : Bool) (st : LinkState T) (backend : S) :
    (link.run_on_backend d1 d2 st backend).2.2.actionRuns ≤ 1 ∧
    ((link.run_on_backend d1 d2 st backend).2.1 = backend ∨
      (link.run_on_backend d1 d2 st backend).2.1 = (link.action backend).1) ∧
    ((link.run_on_backend d1 d2 st backend).1.chan.buffer = st.chan.buffer ∨
      (link.run_on_backend d1 d2 st backend).1.chan.buffer =
        st.chan.buffer ++ [(link.action backend).2]) ∧
    ((link.run_on_backend d1 d2 st backend).2.2.sent = none ∨
      ((link.run_on_backend d1 d2 st backend).2.2.sent =
          some (link.action backend).2 ∧
        (link.run_on_backend d1 d2 st backend).2.2.flagFirst = false ∧
        (link.run_on_backend d1 d2 st backend).2.2.flagSecond = some false)) := by
  cases hc : st.is_cancelled <;> cases d1 <;> cases d2 <;>
    cases hr : st.chan.receiverAlive <;>
    simp [BackendLink.run_on_backend, channelSend, dropReceiver, hc, hr]

/-- Claim C4: the cancellation flag of a fresh pair starts false; under every
operation of the pair it either stays what it was or becomes true (never a
reset to false); `try_recv`, `recv_timeout` and a `run_on_backend` call with
no concurrent receiver drop never change it; and the receiver's destruction
path sets it to true unconditionally and idempotently. -/
theorem cancellation_flag_monotone {S T : Type} (description : String)
    (action : S → S × T) (op : LinkOp S T) (stb : LinkState T × S) :
    (BackendLink.new description action).2.2.is_cancelled = false ∧
    ((op.step stb).1.is_cancelled = stb.1.is_cancelled ∨
      (op.step stb).1.is_cancelled = true) ∧
    (dropReceiver stb.1).is_cancelled = true ∧
    dropReceiver (dropReceiver stb.1) = dropReceiver stb.1 ∧
    (LinkOp.step (S := S) LinkOp.tryRecvOp stb).1.is_cancelled =
      stb.1.is_cancelled ∧
    (∀ d, (LinkOp.step (S := S) (LinkOp.recvTimeoutOp d) stb).1.is_cancelled =
      stb.1.is_cancelled) ∧
    (∀ link : BackendLink S T,
      (LinkOp.step (LinkOp.runOnBackendOp link false false) stb).1.is_cancelled =
        stb.1.is_cancelled) := by
  obtain ⟨st, b⟩ := stb
  refine ⟨rfl, ?_, rfl, rfl, ?_, fun d => ?_, fun l => ?_⟩
  · cases op with
    | tryRecvOp =>
        cases hb : st.chan.buffer <;> cases hs : st.chan.senderAlive <;>
          simp [LinkOp.step, LinkReceiver.try_recv, hb, hs]
    | recvTimeoutOp d =>
        cases hb : st.chan.buffer <;> cases hs : st.chan.senderAlive <;>
          simp [LinkOp.step, LinkReceiver.recv_timeout, hb, hs]
    | dropReceiverOp => simp [LinkOp.step, dropReceiver]
    | runOnBackendOp l d1 d2 =>
        cases hc : st.is_cancelled <;> cases d1 <;> cases d2 <;>
          cases hr : st.chan.receiverAlive <;>
          simp [LinkOp.step, BackendLink.run_on_backend, channelSend,
            dropReceiver, hc, hr]
  · cases hb : st.chan.buffer <;> cases hs : st.chan.senderAlive <;>
      simp [LinkOp.step, LinkReceiver.try_recv, hb, hs]
  · cases hb : st.chan.buffer <;> cases hs : st.chan.senderAlive <;>
      simp [LinkOp.step, LinkReceiver.recv_timeout, hb, hs]
  · cases hc : st.is_cancelled <;> cases hr : st.chan.receiverAlive <;>
      simp [LinkOp.step, BackendLink.run_on_backend, channelSend, hc, hr]

/-- Claim C5: if the flag is false at both checks but the receiver is dropped
between the re-check and the send (or the receive end is already gone), the
send failure is logged as a warning (`warned = true`) and swallowed: the
call returns normally with nothing sent, the action's mutation kept, and no
error propagated (the function is total, its result is a plain tuple). -/
theorem run_on_backend_send_on_closed_channel {S T : Type}
    (link : BackendLink S T) (dropBeforeSend : Bool) (st : LinkState T)
    (backend : S) (h1 : st.is_cancelled = false)
    (h2 : st.chan.receiverAlive = false ∨ dropBeforeSend = true) :
    (link.run_on_backend false dropBeforeSend st backend).2.2.warned = true ∧
    (link.run_on_backend false dropBeforeSend st backend).2.2.sent = none ∧
    (link.run_on_backend false dropBeforeSend st backend).2.1 =
      (link.action backend).1 ∧
    (link.run_on_backend false dropBeforeSend st backend).1.chan.buffer =
      st.chan.buffer := by
  rcases h2 with h2 | h2
  · cases dropBeforeSend <;>
      simp [BackendLink.run_on_backend, channelSend, dropReceiver, h1, h2]
  · subst h2
    simp [BackendLink.run_on_backend, channelSend, dropReceiver, h1]

/-- Witness for C5: the closed-channel theorem applied at a concrete link and
state, with the receiver dropped between the re-check and the send. -/
theorem run_on_backend_send_on_closed_channel_witness :
    witnessStateLive.is_cancelled = false ∧
    (witnessStateLive.chan.receiverAlive = false ∨ true = true) ∧
    (witnessLink.run_on_backend false true witnessStateLive 5).2.2.warned =
      true :=
  ⟨rfl, Or.inr rfl,
    (run_on_backend_send_on_closed_channel witnessLink true witnessStateLive 5
      rfl (Or.inr rfl)).1⟩

/-- Claim C6: for every description and action, `new` returns a
receiver/request pair sharing one fresh channel (empty buffer, both ends
alive) and one fresh cancellation flag initialised to false (so
`is_cancelled` on the fresh pair returns false), the request's action is
the action passed in, and `describe` on the request (and the receiver's
stored label) yield exactly the description passed in. -/
theorem new_fresh_pair {S T : Type} (description : String)
    (action : S → S × T) :
    (BackendLink.new description action).1.description = description ∧
    (BackendLink.new description action).2.1.describe = description ∧
    (BackendLink.new description action).2.1.action = action ∧
    BackendLink.is_cancelled_load (BackendLink.new description action).2.2 =
      false ∧
    (BackendLink.new description action).2.2.chan =
      { buffer := [], senderAlive := true, receiverAlive := true } :=
  ⟨rfl, rfl, rfl, rfl, rfl⟩

/-- Claim C7: `try_recv` is a total function (the embedding of a
non-blocking call) returning exactly one of three outcomes, determined by
the channel state: the first sent value when the buffer is non-empty, the
not-ready outcome (`empty`) when nothing was sent and the request's send
end is still alive, or `disconnected` when nothing was sent and the send
end was dropped; `recv_timeout` behaves the same with the `timeout` outcome
in place of `empty` (its real-time bound is abstracted by evaluating the
channel state at expiry of the wait). -/
theorem recv_outcome_trichotomy {T : Type} (duration : Nat)
    (st : LinkState T) :
    ((∃ v rest, st.chan.buffer = v :: rest ∧
        (LinkReceiver.try_recv st).1 = Except.ok v ∧
        (LinkReceiver.recv_timeout duration st).1 = Except.ok v) ∨
      (st.chan.buffer = [] ∧ st.chan.senderAlive = true ∧
        (LinkReceiver.try_recv st).1 = Except.error TryRecvErr.empty ∧
        (LinkReceiver.recv_timeout duration st).1 =
          Except.error RecvTimeoutErr.timeout) ∨
      (st.chan.buffer = [] ∧ st.chan.senderAlive = false ∧
        (LinkReceiver.try_recv st).1 = Except.error TryRecvErr.disconnected ∧
        (LinkReceiver.recv_timeout duration st).1 =
          Except.error RecvTimeoutErr.disconnected)) := by
  cases hb : st.chan.buffer with
  | nil =>
      cases hs : st.chan.senderAlive
      · exact Or.inr (Or.inr (by
          simp [LinkReceiver.try_recv, LinkReceiver.recv_timeout, hb, hs]))
      · exact Or.inr (Or.inl (by
          simp [LinkReceiver.try_recv, LinkReceiver.recv_timeout, hb, hs]))
  | cons v rest =>
      exact Or.inl ⟨v, rest, by
        simp [LinkReceiver.try_recv, LinkReceiver.recv_timeout, hb]⟩

/-- Claim C8: polling does not cancel — `try_recv` and `recv_timeout`
(whatever outcome they return, including `timeout`) leave the shared
cancellation flag exactly as it was; only the receiver's destruction path
sets the flag. -/
theorem polling_preserves_flag {T : Type} (duration : Nat)
    (st : LinkState T) :
    (LinkReceiver.try_recv st).2.is_cancelled = st.is_cancelled ∧
    (LinkReceiver.recv_timeout duration st).2.is_cancelled =
      st.is_cancelled ∧
    (dropReceiver st).is_cancelled = true := by
  refine ⟨?_, ?_, rfl⟩ <;>
    cases hb : st.chan.buffer <;> cases hs : st.chan.senderAlive <;>
      simp [LinkReceiver.try_recv, LinkReceiver.recv_timeout, hb, hs]

/-- Claim C9: `request_parameter_update` replaces the parameter's held
receiver with the freshly created one — dropping the superseded pair's
receiver, whose shared flag is thereby true, i.e. the old request is
cancelled — and appends the new request to the queue; when the queue has no
live consumer the call ends in the panic `BACKEND_HUNG_UP_MSG` instead of
returning normally. -/
theorem request_parameter_update_spec {S T : Type} (parameter : UIParameter T)
    (description : String) (action : S → S × T) (consumerAlive : Bool)
    (queue : List (BackendLink S T)) :
    (consumerAlive = false →
      BackendLink.request_parameter_update parameter description action
          consumerAlive queue =
        Except.error BACKEND_HUNG_UP_MSG) ∧
    (∀ rxOld stOld, consumerAlive = true →
      parameter.recv = some (rxOld, stOld) →
      BackendLink.request_parameter_update parameter description action
          consumerAlive queue =
        Except.ok
          ({ recv := some ((inlineConstruct description action).1,
              (inlineConstruct (S := S) description action).2.2) },
            some (dropReceiver stOld),
            (inlineConstruct (S := S) description action).2.2,
            queue ++ [(inlineConstruct description action).2.1]) ∧
      (dropReceiver stOld).is_cancelled = true) := by
  constructor
  · intro hc
    simp [BackendLink.request_parameter_update, hc]
  · intro rxOld stOld hc hrecv
    refine ⟨?_, rfl⟩
    simp [BackendLink.request_parameter_update, UIParameter.set_recv, hc,
      hrecv, inlineConstruct]

/-- Witness for C9: the theorem applied at a concrete parameter (holding a
pending live pair), description, action and queue, on both the dead- and
live-consumer branches. -/
theorem request_parameter_update_spec_witness :
    (BackendLink.request_parameter_update
        ({ recv := some ({ description := "old" }, witnessStateLive) } :
          UIParameter Nat)
        "upd" witnessAction false [] =
      Except.error BACKEND_HUNG_UP_MSG) ∧
    (BackendLink.request_parameter_update
        ({ recv := some ({ description := "old" }, witnessStateLive) } :
          UIParameter Nat)
        "upd" witnessAction true [] =
      Except.ok
        ({ recv := some ((inlineConstruct "upd" witnessAction).1,
            (inlineConstruct (S := Nat) "upd" witnessAction).2.2) },
          some (dropReceiver witnessStateLive),
          (inlineConstruct (S := Nat) "upd" witnessAction).2.2,
          [(inlineConstruct "upd" witnessAction).2.1])) :=
  ⟨(request_parameter_update_spec
      ({ recv := some ({ description := "old" }, witnessStateLive) } :
        UIParameter Nat)
      "upd" witnessAction false []).1 rfl,
    (by simpa using
      ((request_parameter_update_spec
        ({ recv := some ({ description := "old" }, witnessStateLive) } :
          UIParameter Nat)
        "upd" witnessAction true []).2
        { description := "old" } witnessStateLive rfl rfl).1)⟩

/-- Claim C10: the receiver/request pair constructed inline by
`request_parameter_update` is exactly the pair produced by
`BackendLink.new` with the same description and action, so their
`run_on_backend`, `describe` and cancellation behaviour coincide. -/
theorem inline_construct_eq_new {S T : Type} (description : String)
    (action : S → S × T) :
    inlineConstruct description action = BackendLink.new description action ∧
    (∀ d1 d2 st backend,
      ((inlineConstruct description action).2.1).run_on_backend d1 d2 st
          backend =
        ((BackendLink.new description action).2.1).run_on_backend d1 d2 st
          backend) ∧
    ((inlineConstruct description action).2.1).describe =
      ((BackendLink.new description action).2.1).describe ∧
    (inlineConstruct description action).2.2.is_cancelled =
      (BackendLink.new description action).2.2.is_cancelled :=
  ⟨rfl, fun _ _ _ _ => rfl, rfl, rfl⟩
